import Mathlib

/-!
Verification of the DriveSafe-AI orchestration layer (`src/lib/utils.ts` and the
`DrunkDetector` component): maxspeed parsing, response parsing and classification,
the capture-loop single-flight discipline, alert cooldowns, and the speed-limit
lookup. Definitions below are shallow embeddings of the TypeScript source;
numbers are modelled as rationals, times as integers (milliseconds).
-/

namespace DriveSafe

/-! ## Basic character/string utilities (models of JS string operations) -/

/-- The backtick character, used by markdown code fences. -/
def btick : Char := Char.ofNat 96

/-- The opening curly brace character. -/
def lbrace : Char := Char.ofNat 123

/-- The closing curly brace character. -/
def rbrace : Char := Char.ofNat 125

/-- Whether `pat` occurs at the start of `cs`. -/
def leadsWith : List Char → List Char → Bool
  | [], _ => true
  | _ :: _, [] => false
  | a :: as, b :: bs => a = b && leadsWith as bs

/-- Model of JS `String.prototype.includes`: whether `pat` occurs
somewhere in `cs`. -/
def hasSub (pat : List Char) : List Char → Bool
  | [] => leadsWith pat []
  | c :: t => leadsWith pat (c :: t) || hasSub pat t

/-- Model of JS `String.prototype.trim` on a character list: whitespace
removed from both ends. -/
def trimL (cs : List Char) : List Char :=
  ((cs.dropWhile Char.isWhitespace).reverse.dropWhile Char.isWhitespace).reverse

/-- Model of JS `String.prototype.toLowerCase` on a character list. -/
def toLowerL (cs : List Char) : List Char := cs.map Char.toLower

/-- Accumulate a leading run of decimal digits: returns the value read so far,
the number of digits consumed, and the remaining characters. -/
def digitsValAux (acc : ℕ) (n : ℕ) : List Char → ℕ × ℕ × List Char
  | [] => (acc, n, [])
  | c :: rest =>
    if c.isDigit then digitsValAux (acc * 10 + (c.toNat - 48)) (n + 1) rest
    else (acc, n, c :: rest)

/-- Model of JS `parseFloat` restricted to lower-case input (the repository
always lower-cases before calling it, so the `Infinity` literal can never
match): skip leading whitespace, read an optional sign, a digit run, an
optional fraction, and an optional exponent; the longest valid numeric
prefix is converted exactly to a rational, and `none` models `NaN`. -/
def parseFloatL (cs0 : List Char) : Option ℚ :=
  let cs := cs0.dropWhile Char.isWhitespace
  let sgncs : ℚ × List Char :=
    match cs with
    | c :: t => if c = '-' then (-1, t) else if c = '+' then (1, t) else (1, cs)
    | [] => (1, cs)
  let sgn := sgncs.1
  let ipart := digitsValAux 0 0 sgncs.2
  let fpart : ℕ × ℕ × List Char :=
    match ipart.2.2 with
    | c :: t => if c = '.' then digitsValAux 0 0 t else (0, 0, ipart.2.2)
    | [] => (0, 0, ipart.2.2)
  if ipart.2.1 + fpart.2.1 = 0 then none
  else
    let mant : ℚ := (ipart.1 : ℚ) + (fpart.1 : ℚ) / (10 : ℚ) ^ fpart.2.1
    let expo : ℤ :=
      match fpart.2.2 with
      | c :: t =>
        if c = 'e' then
          let esgn : ℤ × List Char :=
            match t with
            | d :: u => if d = '-' then (-1, u) else if d = '+' then (1, u) else (1, t)
            | [] => (1, t)
          let epart := digitsValAux 0 0 esgn.2
          if epart.2.1 = 0 then 0 else esgn.1 * (epart.1 : ℤ)
        else 0
      | [] => 0
    some (sgn * mant * (10 : ℚ) ^ expo)

/-! ## Unit conversions and maxspeed parsing (`src/lib/utils.ts`) -/

/-- The function `kphToMph` from `src/lib/utils.ts`: multiply by the literal `0.621371`. -/
def kphToMph (kph : ℚ) : ℚ := kph * (621371 / 1000000)

/-- The function `mpsToMph` from `src/lib/utils.ts`: multiply by the literal `2.23693629`. -/
def mpsToMph (mps : ℚ) : ℚ := mps * (223693629 / 100000000)

/-- The function `parseMaxspeedToMph` from `src/lib/utils.ts`: trim and lower-case, map the
literal `"none"` to `null`, parse the leading number (`null` on `NaN`), use the
value as-is when the string contains `"mph"`, otherwise treat it as km/h. -/
def parseMaxspeedToMph (value : String) : Option ℚ :=
  let v := toLowerL (trimL value.toList)
  if v = "none".toList then none
  else
    match parseFloatL v with
    | none => none
    | some num =>
      if hasSub ('m' :: 'p' :: 'h' :: []) v then some num
      else some (kphToMph num)

/-! ## Data model (`DetectionResult`, `RawVisualObservation`) -/

/-- The `state` enum of `DetectionResult`:
`"drunk" | "sleepy" | "distracted" | "normal"`. -/
inductive DriverState
  | drunk
  | sleepy
  | distracted
  | normal
deriving DecidableEq, Repr

/-- The `DetectionResult` interface from the component. -/
structure DetectionResult where
  isDrunk : Bool
  isSleepy : Bool
  isDistracted : Bool
  confidence : ℚ
  indicators : List String
  state : DriverState
deriving DecidableEq, Repr

/-- The six visual flags plus confidence extracted from the external JSON
payload; every field is optional (`parsed.eyesRed ?? false`,
`parsed.confidence ?? 75` in the source). -/
structure RawVisualObservation where
  eyesRed : Option Bool
  eyesGlassy : Option Bool
  eyesHalfClosed : Option Bool
  eyesClosed : Option Bool
  faceRed : Option Bool
  lookingAway : Option Bool
  confidence : Option ℚ
deriving DecidableEq, Repr

/-! ## Classification (`analyzeImageWithOpenAI`, success path) -/

/-- The pure classification step of `analyzeImageWithOpenAI`: default the six
flags to `false` and confidence to `75`, derive the three impairment booleans,
build the indicator list in source order, and pick the state with fixed
precedence drunk, sleepy, distracted, normal. -/
def classifyObservation (parsed : RawVisualObservation) : DetectionResult :=
  let eyesRed := parsed.eyesRed.getD false
  let eyesGlassy := parsed.eyesGlassy.getD false
  let eyesHalfClosed := parsed.eyesHalfClosed.getD false
  let eyesClosed := parsed.eyesClosed.getD false
  let faceRed := parsed.faceRed.getD false
  let lookingAway := parsed.lookingAway.getD false
  let isDrunk := (eyesRed || eyesGlassy) && (faceRed || eyesHalfClosed)
  let isSleepy := eyesClosed || eyesHalfClosed
  let isDistracted := lookingAway
  let indicators : List String :=
    (if eyesRed then ["red eyes"] else []) ++
    (if eyesGlassy then ["glassy eyes"] else []) ++
    (if eyesHalfClosed then ["droopy eyelids"] else []) ++
    (if eyesClosed then ["eyes closed"] else []) ++
    (if faceRed then ["facial redness"] else []) ++
    (if lookingAway then ["looking away"] else [])
  let state : DriverState :=
    if isDrunk then .drunk
    else if isSleepy then .sleepy
    else if isDistracted then .distracted
    else .normal
  { isDrunk := isDrunk, isSleepy := isSleepy, isDistracted := isDistracted,
    confidence := parsed.confidence.getD 75, indicators := indicators,
    state := state }

/-- The fixed record returned from the `catch` branch of the parse step. -/
def fallbackResult : DetectionResult :=
  { isDrunk := false, isSleepy := false, isDistracted := false,
    confidence := 0,
    indicators := ["Analysis failed - unable to determine"],
    state := .normal }

/-! ## Response-content cleanup and brace extraction -/

/-- Three backticks, the markdown fence marker. -/
def fenceChars : List Char := [btick, btick, btick]

/-- The marker fenced as ` ```json `. -/
def fenceJsonChars : List Char := fenceChars ++ ('j' :: 's' :: 'o' :: 'n' :: [])

/-- Model of `String.prototype.replace` with a non-global pattern
`pat` plus an optional trailing newline, replaced by the empty string:
remove the first occurrence of `pat` and one newline directly after it. -/
def removeFirstTag (pat : List Char) : List Char → List Char
  | [] => []
  | c :: rest =>
    if leadsWith pat (c :: rest) then
      match (c :: rest).drop pat.length with
      | [] => []
      | nl :: t => if nl = '\n' then t else nl :: t
    else c :: removeFirstTag pat rest

/-- Whether `cs` ends with `suf`. -/
def endsWithL (suf cs : List Char) : Bool := leadsWith suf.reverse cs.reverse

/-- Model of replacing the anchored pattern of a trailing fence with the
empty string: drop a trailing fence (with an optional newline after it)
from the end of the string. -/
def removeEndFence (cs : List Char) : List Char :=
  if endsWithL (fenceChars ++ ['\n']) cs then cs.take (cs.length - 4)
  else if endsWithL fenceChars cs then cs.take (cs.length - 3)
  else cs

/-- The fence-stripping step of the parse: trim, then if the content mentions
` ```json ` strip that marker and a trailing fence, else if it mentions a bare
fence strip that, then trim again. -/
def stripFences (content : List Char) : List Char :=
  let clean := trimL content
  if hasSub fenceJsonChars clean then
    trimL (removeEndFence (removeFirstTag fenceJsonChars clean))
  else if hasSub fenceChars clean then
    trimL (removeEndFence (removeFirstTag fenceChars clean))
  else clean

/-- Index of the first occurrence of `c` in the list. -/
def idxOfFirst (c : Char) : List Char → Option ℕ
  | [] => none
  | x :: t => if x = c then some 0 else (idxOfFirst c t).map (· + 1)

/-- Index of the last occurrence of `c` in the list. -/
def idxOfLast (c : Char) (cs : List Char) : Option ℕ :=
  (idxOfFirst c cs.reverse).map (fun i => cs.length - 1 - i)

/-- Model of `cleanContent.match(/\x7b[\s\S]*\x7d/)`: the greedy match runs
from the first opening brace to the last closing brace, and exists exactly
when some closing brace follows the first opening brace. -/
def extractBraceMatch (cs : List Char) : Option (List Char) :=
  match idxOfFirst lbrace cs, idxOfLast rbrace cs with
  | some i, some j => if i < j then some ((cs.drop i).take (j - i + 1)) else none
  | _, _ => none

/-- The parse-and-classify step of `analyzeImageWithOpenAI` on response
content, with the JSON decode (`JSON.parse` plus field reads, a JS builtin
external to the repository) abstracted as `decode`: strip fences, extract the
brace match, decode, classify; any failure falls back to `fallbackResult`. -/
def runParseContent (decode : List Char → Option RawVisualObservation)
    (content : List Char) : DetectionResult :=
  match extractBraceMatch (stripFences content) with
  | none => fallbackResult
  | some jsonSlice =>
    match decode jsonSlice with
    | none => fallbackResult
    | some parsed => classifyObservation parsed

/-! ## Capture-loop tick guard (`analyzeCurrentFrame`) -/

/-- Loop-controller state: the live `isAnalyzing` React state value (what the
most recent render and the UI see), the number of classification requests
currently outstanding, and the total issued. -/
structure LoopState where
  isAnalyzing : Bool
  inFlight : ℕ
  calls : ℕ
deriving DecidableEq, Repr

/-- State before monitoring starts. -/
def initialLoopState : LoopState := ⟨false, 0, 0⟩

/-- Events of one capture loop: an analysis tick (timer callback), and
completion of the in-flight analysis (the `finally` block). -/
inductive LoopEvent
  | tick (videoReady : Bool)
  | complete
deriving DecidableEq, Repr

/-- One step of the loop, as executed by the timer callbacks installed in
`startMonitoring`. React `useState` values are captured by value in render
closures: the `setTimeout`/`setInterval` callbacks permanently hold the
`analyzeCurrentFrame` closure of the render in which monitoring started and
are never re-installed, so the guard `if (isAnalyzing || !videoWidth) return`
tests `captured` — the value of `isAnalyzing` at that render — not the live
value. A tick that passes the guard calls `setIsAnalyzing(true)` (a live
write, which re-renders but cannot change `captured`) and issues one
classification request; completion (`finally`) clears the live flag and
retires the request. `videoWidth` is read through a `useRef`, which is a
shared mutable cell, hence live. -/
def stepLoop (captured : Bool) (s : LoopState) : LoopEvent → LoopState
  | .tick videoReady =>
    if captured || !videoReady then s
    else { isAnalyzing := true, inFlight := s.inFlight + 1, calls := s.calls + 1 }
  | .complete => { s with isAnalyzing := false, inFlight := s.inFlight - 1 }

/-- Run the loop over a sequence of events with the captured guard value. -/
def runLoop (captured : Bool) (s : LoopState) (es : List LoopEvent) : LoopState :=
  es.foldl (stepLoop captured) s

/-- The `isAnalyzing` value held by the timer closures: monitoring is started
from a render in which no analysis is running, so the captured value is
`false`, permanently. -/
def capturedIsAnalyzing : Bool := false

/-! ## Alert cooldowns (`lastAlertTimeRef`, `lastSpeedAlertTimeRef`) -/

/-- The alert condition of `analyzeCurrentFrame`:
`(result.isDrunk || result.isSleepy || result.isDistracted) && result.confidence >= 30`. -/
def qualifyingAlert (r : DetectionResult) : Bool :=
  (r.isDrunk || r.isSleepy || r.isDistracted) && decide ((30 : ℚ) ≤ r.confidence)

/-- The mutable alert refs of the component: the two cooldown timestamps
(milliseconds, initialized to 0) and the dispatched audio/spoken alerts of
each kind, most recent first. -/
structure RefsState where
  lastAlertTime : ℤ
  lastSpeedAlertTime : ℤ
  impairmentAlerts : List ℤ
  speedAlerts : List ℤ
deriving DecidableEq, Repr

/-- Refs at mount: both cooldown timestamps start at 0, nothing dispatched. -/
def initialRefs : RefsState := ⟨0, 0, [], []⟩

/-- The audio/spoken alert branch of `analyzeCurrentFrame`: when the result
qualifies and more than 60000 ms passed since `lastAlertTimeRef`, record the
dispatch time and play/speak the alert. -/
def impairmentAlertStep (s : RefsState) (now : ℤ) (r : DetectionResult) : RefsState :=
  if qualifyingAlert r then
    if now - s.lastAlertTime > 60000 then
      { s with lastAlertTime := now, impairmentAlerts := now :: s.impairmentAlerts }
    else s
  else s

/-- The overspeed `useEffect`: return when either speed or limit is null;
alert when speed strictly exceeds the limit and more than 60000 ms passed
since `lastSpeedAlertTimeRef`. -/
def overspeedStep (s : RefsState) (now : ℤ) (speedMph limitMph : Option ℚ) : RefsState :=
  match speedMph, limitMph with
  | some speed, some lim =>
    if speed > lim then
      if now - s.lastSpeedAlertTime > 60000 then
        { s with lastSpeedAlertTime := now, speedAlerts := now :: s.speedAlerts }
      else s
    else s
  | _, _ => s

/-- Interleaved alert events: a classification result arriving at time `now`,
or an overspeed check at time `now` with current speed and limit. -/
inductive RefEvent
  | impair (now : ℤ) (r : DetectionResult)
  | overspeed (now : ℤ) (speedMph limitMph : Option ℚ)

/-- Dispatch one alert event. -/
def stepRefs (s : RefsState) : RefEvent → RefsState
  | .impair now r => impairmentAlertStep s now r
  | .overspeed now sp lim => overspeedStep s now sp lim

/-- Run the alert dispatcher over a sequence of events. -/
def runRefs (s : RefsState) (es : List RefEvent) : RefsState := es.foldl stepRefs s

/-- Consecutive dispatch times (most recent first) are separated by more than
60000 ms. -/
def gapsOver60000 : List ℤ → Bool
  | a :: b :: t => decide (a - b > 60000) && gapsOver60000 (b :: t)
  | _ => true

/-! ## Retry loop of `analyzeCurrentFrame` -/

/-- The bound of the retry loop in the source, set to 1 there with the
comment: Reduce to single attempt to avoid repeated refusals. -/
def maxAttempts : ℕ := 1

/-- Trace of the retry loop of one tick: how many calls it attempted, which
delays it slept (the `setTimeout(resolve, 5000)` branch of the source), and the
result it obtained, if any. -/
structure RetryTrace where
  attemptsMade : ℕ
  delaysMs : List ℕ
  result : Option DetectionResult
deriving Repr

/-- The `while (!result && attempts < maxAttempts)` loop: attempt the call;
on success break; on failure return when attempts reached `maxAttempts`,
otherwise sleep 5000 ms and loop. `outcome n` is what the `n`-th call
returns (`none` models a thrown error); `fuel` bounds the iteration count. -/
def retryFrom (outcome : ℕ → Option DetectionResult) : ℕ → ℕ → RetryTrace
  | attempts, 0 => ⟨attempts, [], none⟩
  | attempts, fuel + 1 =>
    if attempts < maxAttempts then
      let a := attempts + 1
      match outcome a with
      | some r => ⟨a, [], some r⟩
      | none =>
        if a = maxAttempts then ⟨a, [], none⟩
        else
          let rest := retryFrom outcome a fuel
          ⟨rest.attemptsMade, 5000 :: rest.delaysMs, rest.result⟩
    else ⟨attempts, [], none⟩

/-- The retry loop as entered by a tick: attempts start at 0; fuel
`maxAttempts + 1` covers every reachable iteration. -/
def runRetry (outcome : ℕ → Option DetectionResult) : RetryTrace :=
  retryFrom outcome 0 (maxAttempts + 1)

/-- Effect of a tick on the stored current result: a successful attempt
replaces it, a failed loop returns early keeping the previous value. -/
def tickResult (prev : Option DetectionResult)
    (outcome : ℕ → Option DetectionResult) : Option DetectionResult :=
  match (runRetry outcome).result with
  | none => prev
  | some r => some r

/-! ## Speed-limit lookup (`fetchSpeedLimit`) -/

/-- The scan of `data.elements`: the optional `tags.maxspeed` tag of each element, a
string; `if (!raw) continue` skips missing and empty tags, and
`if (mph) { bestLimit = mph; break; }` adopts the first value that is
neither `null` nor `0` (JS truthiness). -/
def firstLimit : List (Option String) → Option ℚ
  | [] => none
  | none :: rest => firstLimit rest
  | some raw :: rest =>
    if raw = "" then firstLimit rest
    else
      match parseMaxspeedToMph raw with
      | some mph => if mph ≠ 0 then some mph else firstLimit rest
      | none => firstLimit rest

/-- JS `Math.round`: round half toward positive infinity. -/
def jsRound (x : ℚ) : ℤ := ⌊x + 1 / 2⌋

/-- The stored limit after one lookup:
`if (bestLimit !== null) setSpeedLimitMph(Math.round(bestLimit))`, else the
previous value is left in place. -/
def updateSpeedLimit (prev : Option ℤ) (elems : List (Option String)) : Option ℤ :=
  match firstLimit elems with
  | some mph => some (jsRound mph)
  | none => prev

/-! ## Projection lemmas for the classification step -/

theorem classifyObservation_isDrunk (p : RawVisualObservation) :
    (classifyObservation p).isDrunk =
      ((p.eyesRed.getD false || p.eyesGlassy.getD false) &&
        (p.faceRed.getD false || p.eyesHalfClosed.getD false)) := rfl

theorem classifyObservation_isSleepy (p : RawVisualObservation) :
    (classifyObservation p).isSleepy =
      (p.eyesClosed.getD false || p.eyesHalfClosed.getD false) := rfl

theorem classifyObservation_isDistracted (p : RawVisualObservation) :
    (classifyObservation p).isDistracted = p.lookingAway.getD false := rfl

theorem classifyObservation_confidence (p : RawVisualObservation) :
    (classifyObservation p).confidence = p.confidence.getD 75 := rfl

theorem classifyObservation_indicators (p : RawVisualObservation) :
    (classifyObservation p).indicators =
      (if p.eyesRed.getD false then ["red eyes"] else []) ++
      (if p.eyesGlassy.getD false then ["glassy eyes"] else []) ++
      (if p.eyesHalfClosed.getD false then ["droopy eyelids"] else []) ++
      (if p.eyesClosed.getD false then ["eyes closed"] else []) ++
      (if p.faceRed.getD false then ["facial redness"] else []) ++
      (if p.lookingAway.getD false then ["looking away"] else []) := rfl

theorem classifyObservation_state (p : RawVisualObservation) :
    (classifyObservation p).state =
      (if (p.eyesRed.getD false || p.eyesGlassy.getD false) &&
            (p.faceRed.getD false || p.eyesHalfClosed.getD false) then
          DriverState.drunk
        else if p.eyesClosed.getD false || p.eyesHalfClosed.getD false then
          DriverState.sleepy
        else if p.lookingAway.getD false then DriverState.distracted
        else DriverState.normal) := rfl

/-- C1: for every parsed `RawVisualObservation` (six booleans defaulted false
when absent), the classification computes
`isDrunk = (eyesRed || eyesGlassy) && (faceRed || eyesHalfClosed)`,
`isSleepy = eyesClosed || eyesHalfClosed`, `isDistracted = lookingAway`, and
`state` is the unique one of the four enum values selected by the fixed
precedence drunk, else sleepy, else distracted, else normal: the first true
condition wins even when several flags hold. -/
theorem claim_C1 (p : RawVisualObservation) :
    ((classifyObservation p).isDrunk =
      ((p.eyesRed.getD false || p.eyesGlassy.getD false) &&
        (p.faceRed.getD false || p.eyesHalfClosed.getD false))) ∧
    ((classifyObservation p).isSleepy =
      (p.eyesClosed.getD false || p.eyesHalfClosed.getD false)) ∧
    ((classifyObservation p).isDistracted = p.lookingAway.getD false) ∧
    ((classifyObservation p).state = DriverState.drunk ↔
      (classifyObservation p).isDrunk = true) ∧
    ((classifyObservation p).state = DriverState.sleepy ↔
      ((classifyObservation p).isDrunk = false ∧
        (classifyObservation p).isSleepy = true)) ∧
    ((classifyObservation p).state = DriverState.distracted ↔
      ((classifyObservation p).isDrunk = false ∧
        (classifyObservation p).isSleepy = false ∧
        (classifyObservation p).isDistracted = true)) ∧
    ((classifyObservation p).state = DriverState.normal ↔
      ((classifyObservation p).isDrunk = false ∧
        (classifyObservation p).isSleepy = false ∧
        (classifyObservation p).isDistracted = false)) := by
  simp only [classifyObservation_isDrunk, classifyObservation_isSleepy,
    classifyObservation_isDistracted, classifyObservation_state]
  cases p.eyesRed.getD false <;> cases p.eyesGlassy.getD false <;>
    cases p.eyesHalfClosed.getD false <;> cases p.eyesClosed.getD false <;>
    cases p.faceRed.getD false <;> cases p.lookingAway.getD false <;> simp

/-- C5: for every successfully parsed observation, the indicators list is
empty iff all six input flags (defaulted) are false, and each true flag
contributes exactly one literal label in the fixed order red eyes, glassy
eyes, droopy eyelids, eyes closed, facial redness, looking away; the
parse-failure fallback is the only all-flags-false record with a non-empty
indicators list, carrying exactly the one sentinel indicator and
confidence 0. -/
theorem claim_C5 (p : RawVisualObservation) :
    ((classifyObservation p).indicators =
      (if p.eyesRed.getD false then ["red eyes"] else []) ++
      (if p.eyesGlassy.getD false then ["glassy eyes"] else []) ++
      (if p.eyesHalfClosed.getD false then ["droopy eyelids"] else []) ++
      (if p.eyesClosed.getD false then ["eyes closed"] else []) ++
      (if p.faceRed.getD false then ["facial redness"] else []) ++
      (if p.lookingAway.getD false then ["looking away"] else [])) ∧
    ((classifyObservation p).indicators = [] ↔
      (p.eyesRed.getD false = false ∧ p.eyesGlassy.getD false = false ∧
        p.eyesHalfClosed.getD false = false ∧ p.eyesClosed.getD false = false ∧
        p.faceRed.getD false = false ∧ p.lookingAway.getD false = false)) ∧
    (fallbackResult.isDrunk = false ∧ fallbackResult.isSleepy = false ∧
      fallbackResult.isDistracted = false ∧
      fallbackResult.indicators = ["Analysis failed - unable to determine"] ∧
      fallbackResult.confidence = 0) := by
  refine ⟨classifyObservation_indicators p, ?_, rfl, rfl, rfl, rfl, rfl⟩
  rw [classifyObservation_indicators]
  cases p.eyesRed.getD false <;> cases p.eyesGlassy.getD false <;>
    cases p.eyesHalfClosed.getD false <;> cases p.eyesClosed.getD false <;>
    cases p.faceRed.getD false <;> cases p.lookingAway.getD false <;> simp

/-- C2: for every raw response text, when fence stripping and the greedy
brace match find no brace-delimited substring, or the structured decode of
the matched substring fails, the parse step yields exactly the fixed
fallback record (all flags false, confidence 0, the single sentinel
indicator, state normal); the result is total, so no error reaches the
caller. -/
theorem claim_C2 (decode : List Char → Option RawVisualObservation)
    (content : List Char) :
    (extractBraceMatch (stripFences content) = none →
      runParseContent decode content = fallbackResult) ∧
    (∀ jsonSlice, extractBraceMatch (stripFences content) = some jsonSlice →
      decode jsonSlice = none →
      runParseContent decode content = fallbackResult) := by
  constructor
  · intro h
    simp [runParseContent, h]
  · intro jsonSlice hj hd
    simp [runParseContent, hj, hd]

/-- C2 witness: content with no braces at all falls back, with any decode. -/
theorem claim_C2_witness :
    runParseContent (fun _ => none) ("I cannot analyze this image.".toList) =
      fallbackResult :=
  (claim_C2 (fun _ => none) ("I cannot analyze this image.".toList)).1 (by decide)

/-- C3: fails on the code. The single-flight guard reads the `isAnalyzing`
value captured by the timer closures at the render in which monitoring
started (`false`, forever), not the live value, so a tick arriving while a
previous analysis is still in flight is not a no-op: a video-ready tick
issues a new request even while the live flag shows an analysis running,
and three ticks during one long-running analysis issue three concurrent
network calls, violating the claimed bound of at most one outstanding
request. -/
theorem claim_C3 :
    (∀ s : LoopState, s.isAnalyzing = true →
      (stepLoop capturedIsAnalyzing s (LoopEvent.tick true)).inFlight =
        s.inFlight + 1 ∧
      (stepLoop capturedIsAnalyzing s (LoopEvent.tick true)).calls =
        s.calls + 1) ∧
    (runLoop capturedIsAnalyzing initialLoopState
      [LoopEvent.tick true, LoopEvent.tick true, LoopEvent.tick true]).calls = 3 ∧
    ¬(runLoop capturedIsAnalyzing initialLoopState
      [LoopEvent.tick true, LoopEvent.tick true, LoopEvent.tick true]).inFlight ≤ 1 := by
  refine ⟨?_, by decide, by decide⟩
  intro s _
  exact ⟨rfl, rfl⟩

/-- C3 witness: a tick during an in-flight analysis (live flag set, one
request outstanding) issues a second concurrent request. -/
theorem claim_C3_witness :
    (stepLoop capturedIsAnalyzing ⟨true, 1, 1⟩ (LoopEvent.tick true)).inFlight = 2 ∧
    (stepLoop capturedIsAnalyzing ⟨true, 1, 1⟩ (LoopEvent.tick true)).calls = 2 :=
  claim_C3.1 ⟨true, 1, 1⟩ rfl

/-! ## Cooldown invariants for the alert dispatcher -/

/-- Each cooldown timestamp equals the most recent dispatch of its kind
(0 before any dispatch), and consecutive dispatches of each kind are
separated by more than 60000 ms. -/
def refsInv (s : RefsState) : Prop :=
  s.lastAlertTime = s.impairmentAlerts.headD 0 ∧
  gapsOver60000 s.impairmentAlerts = true ∧
  s.lastSpeedAlertTime = s.speedAlerts.headD 0 ∧
  gapsOver60000 s.speedAlerts = true

theorem refsInv_impair (s : RefsState) (now : ℤ) (r : DetectionResult)
    (h : refsInv s) : refsInv (impairmentAlertStep s now r) := by
  obtain ⟨h1, h2, h3, h4⟩ := h
  unfold impairmentAlertStep
  split
  · split
    · rename_i ht
      refine ⟨rfl, ?_, h3, h4⟩
      cases hl : s.impairmentAlerts with
      | nil => rfl
      | cons b t =>
        rw [hl] at h1 h2
        simp only [List.headD_cons] at h1
        simp only [gapsOver60000, Bool.and_eq_true, decide_eq_true_eq]
        exact ⟨by rw [← h1]; omega, h2⟩
    · exact ⟨h1, h2, h3, h4⟩
  · exact ⟨h1, h2, h3, h4⟩

theorem refsInv_overspeed (s : RefsState) (now : ℤ) (sp lim : Option ℚ)
    (h : refsInv s) : refsInv (overspeedStep s now sp lim) := by
  obtain ⟨h1, h2, h3, h4⟩ := h
  unfold overspeedStep
  split
  · split
    · split
      · rename_i ht
        refine ⟨h1, h2, rfl, ?_⟩
        cases hl : s.speedAlerts with
        | nil => rfl
        | cons b t =>
          rw [hl] at h3 h4
          simp only [List.headD_cons] at h3
          simp only [gapsOver60000, Bool.and_eq_true, decide_eq_true_eq]
          exact ⟨by rw [← h3]; omega, h4⟩
      · exact ⟨h1, h2, h3, h4⟩
    · exact ⟨h1, h2, h3, h4⟩
  · exact ⟨h1, h2, h3, h4⟩

theorem refsInv_run (s : RefsState) (es : List RefEvent) (h : refsInv s) :
    refsInv (runRefs s es) := by
  induction es generalizing s with
  | nil => exact h
  | cons e rest ih =>
    refine ih (stepRefs s e) ?_
    cases e with
    | impair now r => exact refsInv_impair s now r h
    | overspeed now sp lim => exact refsInv_overspeed s now sp lim h

/-- A qualifying result reused in the cooldown scenarios: looking away with
the defaulted confidence 75. -/
def distractedResult : DetectionResult :=
  classifyObservation ⟨none, none, none, none, none, some true, none⟩

/-- C4: the spoken/audio impairment alert is dispatched only when more than
60 seconds (60000 ms) have elapsed since the last such dispatch, for any
sequence of detections; two qualifying detections 10 seconds apart produce
one spoken alert, two 61 seconds apart produce two. -/
theorem claim_C4 :
    (∀ es : List RefEvent,
      gapsOver60000 ((runRefs initialRefs es).impairmentAlerts) = true) ∧
    (runRefs initialRefs
      [RefEvent.impair 100000 distractedResult,
       RefEvent.impair 110000 distractedResult]).impairmentAlerts.length = 1 ∧
    (runRefs initialRefs
      [RefEvent.impair 100000 distractedResult,
       RefEvent.impair 161000 distractedResult]).impairmentAlerts.length = 2 := by
  refine ⟨?_, by decide, by decide⟩
  intro es
  exact (refsInv_run initialRefs es (by simp [refsInv, initialRefs, gapsOver60000])).2.1

/-- C9: the overspeed alert fires only when both the current speed and the
limit are non-null and the speed strictly exceeds the limit — never when the
limit is null and never when the speed equals the limit; successive
overspeed alerts are separated by more than 60 seconds on a cooldown
independent of the impairment-alert cooldown (neither step touches the
timestamp or dispatch list of the other). -/
theorem claim_C9 :
    (∀ (s : RefsState) (now : ℤ) (sp : Option ℚ),
      overspeedStep s now sp none = s) ∧
    (∀ (s : RefsState) (now : ℤ) (lim : ℚ),
      overspeedStep s now none (some lim) = s) ∧
    (∀ (s : RefsState) (now : ℤ) (sp lim : ℚ), sp ≤ lim →
      overspeedStep s now (some sp) (some lim) = s) ∧
    (∀ (s : RefsState) (now : ℤ) (sp lim : Option ℚ),
      (overspeedStep s now sp lim).lastAlertTime = s.lastAlertTime ∧
      (overspeedStep s now sp lim).impairmentAlerts = s.impairmentAlerts) ∧
    (∀ (s : RefsState) (now : ℤ) (r : DetectionResult),
      (impairmentAlertStep s now r).lastSpeedAlertTime = s.lastSpeedAlertTime ∧
      (impairmentAlertStep s now r).speedAlerts = s.speedAlerts) ∧
    (∀ es : List RefEvent,
      gapsOver60000 ((runRefs initialRefs es).speedAlerts) = true) ∧
    (overspeedStep initialRefs 100000 (some 40) (some 30)).speedAlerts =
      [100000] := by
  refine ⟨?_, ?_, ?_, ?_, ?_, ?_, by decide⟩
  · intro s now sp
    cases sp <;> rfl
  · intro s now lim
    rfl
  · intro s now sp lim hle
    simp [overspeedStep, not_lt.2 hle]
  · intro s now sp lim
    unfold overspeedStep
    split
    · split
      · split <;> exact ⟨rfl, rfl⟩
      · exact ⟨rfl, rfl⟩
    · exact ⟨rfl, rfl⟩
  · intro s now r
    unfold impairmentAlertStep
    split
    · split <;> exact ⟨rfl, rfl⟩
    · exact ⟨rfl, rfl⟩
  · intro es
    exact (refsInv_run initialRefs es (by simp [refsInv, initialRefs, gapsOver60000])).2.2.2

/-- C9 witness: speed equal to the limit produces no alert and no state
change. -/
theorem claim_C9_witness :
    overspeedStep initialRefs 999999 (some 30) (some 30) = initialRefs :=
  claim_C9.2.2.1 initialRefs 999999 30 30 (by decide)

/-- C6 counterexample: with every call failing, the retry loop of a tick makes
exactly one attempt and sleeps no retry delay — it does not retry once after
a 5-second delay (`maxAttempts = 1` makes the 5000 ms branch unreachable). -/
theorem claim_C6_counterexample :
    (runRetry (fun _ => none)).attemptsMade = 1 ∧
    (runRetry (fun _ => none)).delaysMs = [] ∧
    ¬(runRetry (fun _ => none)).attemptsMade = 2 := by
  refine ⟨rfl, rfl, by decide⟩

/-- C6 (amended): for every analysis tick whose classification call fails,
the loop makes exactly one attempt (`maxAttempts = 1`; the 5-second retry
branch is unreachable, so no retry and no delay occur) and returns keeping
the previously stored current result unchanged, with no user-facing error
surfaced. -/
theorem claim_C6_amended (prev : Option DetectionResult)
    (outcome : ℕ → Option DetectionResult) (h : outcome 1 = none) :
    tickResult prev outcome = prev ∧
    (runRetry outcome).attemptsMade = 1 ∧
    (runRetry outcome).delaysMs = [] := by
  have hrun : runRetry outcome = ⟨1, [], none⟩ := by
    simp [runRetry, retryFrom, maxAttempts, h]
  refine ⟨?_, by rw [hrun], by rw [hrun]⟩
  simp [tickResult, hrun]

/-- C6 witness: a failing call keeps a concrete previous result. -/
theorem claim_C6_witness :
    tickResult (some fallbackResult) (fun _ => none) = some fallbackResult ∧
    (runRetry (fun _ => none)).attemptsMade = 1 :=
  ⟨(claim_C6_amended (some fallbackResult) (fun _ => none) rfl).1,
    (claim_C6_amended (some fallbackResult) (fun _ => none) rfl).2.1⟩

/-- An observation whose payload reports confidence 150, above the
documented range. -/
def overConfidentObs : RawVisualObservation :=
  ⟨none, none, none, none, none, none, some 150⟩

/-- C7 counterexample: the classification passes the payload confidence
through unclamped, so a payload reporting 150 yields a stored
`DetectionResult` with confidence 150, outside `[0, 100]`. -/
theorem claim_C7_counterexample :
    (classifyObservation overConfidentObs).confidence = 150 ∧
    ¬(classifyObservation overConfidentObs).confidence ≤ 100 := by
  refine ⟨rfl, by decide⟩

/-- C7 (amended): the classification confidence is the payload value when
present (unclamped) and 75 when absent, and the fallback record carries 0;
consequently the stored confidence lies in `[0, 100]` whenever the payload
confidence, if present, lies in that range — but nothing enforces the range
against an out-of-range payload. -/
theorem claim_C7_amended (p : RawVisualObservation) :
    (p.confidence = none → (classifyObservation p).confidence = 75) ∧
    (∀ c : ℚ, p.confidence = some c → (classifyObservation p).confidence = c) ∧
    fallbackResult.confidence = 0 ∧
    ((∀ c : ℚ, p.confidence = some c → 0 ≤ c ∧ c ≤ 100) →
      0 ≤ (classifyObservation p).confidence ∧
        (classifyObservation p).confidence ≤ 100) := by
  refine ⟨?_, ?_, rfl, ?_⟩
  · intro h
    rw [classifyObservation_confidence, h]
    rfl
  · intro c h
    rw [classifyObservation_confidence, h]
    rfl
  · intro h
    rw [classifyObservation_confidence]
    cases hc : p.confidence with
    | none =>
      constructor <;> norm_num
    | some c =>
      simpa using h c hc

/-- C7 witness: an absent payload confidence defaults to 75, which lies in
the documented range. -/
theorem claim_C7_witness :
    (classifyObservation ⟨none, none, none, none, none, none, none⟩).confidence = 75 ∧
    (0 ≤ (classifyObservation ⟨none, none, none, none, none, none, none⟩).confidence ∧
      (classifyObservation ⟨none, none, none, none, none, none, none⟩).confidence ≤ 100) :=
  ⟨(claim_C7_amended ⟨none, none, none, none, none, none, none⟩).1 rfl,
    (claim_C7_amended ⟨none, none, none, none, none, none, none⟩).2.2.2
      (fun c hc => by cases hc)⟩

/-- C8: maxspeed tag interpretation — a bare number is read as km/h and
converted to mph (`"50"` gives exactly 31.06855 mph), a value suffixed
`mph` is used as-is, the literal `"none"` maps to null rather than zero,
and any string whose leading numeric parse fails maps to null. -/
theorem claim_C8 :
    parseMaxspeedToMph "50" = some (3106855 / 100000) ∧
    parseMaxspeedToMph "30 mph" = some 30 ∧
    parseMaxspeedToMph "none" = none ∧
    (∀ value : String, parseFloatL (toLowerL (trimL value.toList)) = none →
      parseMaxspeedToMph value = none) := by
  refine ⟨?_, ?_, by decide, ?_⟩
  · simp +decide [parseMaxspeedToMph, parseFloatL, trimL, toLowerL,
      digitsValAux, hasSub, leadsWith, kphToMph]
    all_goals norm_num
  · simp +decide [parseMaxspeedToMph, parseFloatL, trimL, toLowerL,
      digitsValAux, hasSub, leadsWith, kphToMph]
  · intro value h
    simp only [String.toList] at h
    simp [parseMaxspeedToMph, h]

/-- C8 witness: a string with no leading number parses to null. -/
theorem claim_C8_witness : parseMaxspeedToMph "garbage" = none :=
  claim_C8.2.2.2 "garbage" (by decide)

/-- C10 counterexample: an element tagged `"0.5"` (0.5 km/h) parses to the
positive value 0.310...​ mph, so it is adopted and `Math.round` stores the
limit 0 — the stored speed limit can be set to 0. -/
theorem claim_C10_counterexample :
    updateSpeedLimit (some 25) [some "0.5"] = some 0 := by
  have hparse : parseMaxspeedToMph "0.5" = some (621371 / 2000000) := by
    simp +decide [parseMaxspeedToMph, parseFloatL, trimL, toLowerL,
      digitsValAux, hasSub, leadsWith, kphToMph]
    all_goals norm_num
  have hfl : firstLimit [some "0.5"] = some (621371 / 2000000) := by
    simp [firstLimit, hparse]
  have hround : jsRound (621371 / 2000000) = 0 := by
    unfold jsRound
    rw [Int.floor_eq_zero_iff]
    constructor <;> norm_num
  simp [updateSpeedLimit, hfl, hround]

/-- C10 (amended): in the speed-limit lookup, elements are scanned in order
and the first maxspeed tag whose parsed mph value is non-null and non-zero
is adopted; a tag parsing to 0 mph is skipped exactly like an unparseable or
missing one, and when no element qualifies the previously stored limit is
left unchanged. The stored value is `Math.round` of the adopted mph value,
which is 0 when the adopted value is positive but below 0.5 mph, so the
stored limit can still be 0. -/
theorem claim_C10_amended (prev : Option ℤ) :
    (updateSpeedLimit prev [] = prev) ∧
    (∀ rest : List (Option String), firstLimit (none :: rest) = firstLimit rest) ∧
    (∀ rest : List (Option String),
      firstLimit (some "" :: rest) = firstLimit rest) ∧
    (∀ (raw : String) (rest : List (Option String)),
      parseMaxspeedToMph raw = none →
      firstLimit (some raw :: rest) = firstLimit rest) ∧
    (∀ (raw : String) (rest : List (Option String)),
      parseMaxspeedToMph raw = some 0 →
      firstLimit (some raw :: rest) = firstLimit rest) ∧
    (∀ (raw : String) (rest : List (Option String)) (m : ℚ),
      parseMaxspeedToMph raw = some m → m ≠ 0 →
      firstLimit (some raw :: rest) = some m) ∧
    (∀ elems : List (Option String), firstLimit elems = none →
      updateSpeedLimit prev elems = prev) ∧
    (∀ (elems : List (Option String)) (m : ℚ), firstLimit elems = some m →
      updateSpeedLimit prev elems = some (jsRound m)) := by
  refine ⟨rfl, fun rest => rfl, ?_, ?_, ?_, ?_, ?_, ?_⟩
  · intro rest
    simp [firstLimit]
  · intro raw rest h
    by_cases hr : raw = ""
    · simp [firstLimit, hr]
    · simp [firstLimit, hr, h]
  · intro raw rest h
    by_cases hr : raw = ""
    · simp [firstLimit, hr]
    · simp [firstLimit, hr, h]
  · intro raw rest m h hm
    have hr : ¬raw = "" := by
      intro he
      rw [he] at h
      have : parseMaxspeedToMph "" = none := by decide
      rw [this] at h
      cases h
    simp [firstLimit, hr, h, hm]
  · intro elems h
    simp [updateSpeedLimit, h]
  · intro elems m h
    simp [updateSpeedLimit, h]

/-- C10 witness: an explicit mph tag qualifies and its rounded value is
stored, replacing the previous limit. -/
theorem claim_C10_witness :
    updateSpeedLimit (some 25) [some "30 mph"] = some (jsRound 30) :=
  (claim_C10_amended (some 25)).2.2.2.2.2.2.2 [some "30 mph"] 30 (by
    simp +decide [firstLimit, parseMaxspeedToMph, parseFloatL, trimL,
      toLowerL, digitsValAux, hasSub, leadsWith])

end DriveSafe
